import Mathlib

/-!
Verification of the oasdiff diff engine: a shallow embedding in Lean 4 of the
schema-list diff, the method (operation) diff and the endpoint diff-result
filter, together with theorems settling the specified properties.

Go maps are embedded as association lists, Go slices as lists, nilable
pointers as `Option`, and `reflect.DeepEqual` as decidable structural
equality on the embedded values.
-/

namespace Oasdiff

/-- Modelled from the spec: the full recursive schema object (section 4.3) is not
part of the embedded sources; only its structural identity and its diffable
content are observable to the schema-list diff.  `core` stands for the
always-compared content and `extra` for an optional field that the diff
compares only when the configuration asks for it (section 3: Config selects
which optional fields to compare), so structural equality (reflect.DeepEqual)
can be strictly finer than diff-emptiness. -/
structure Schema where
  core : Nat
  extra : Nat
deriving DecidableEq, Repr

/-- One element of `openapi3.SchemaRefs`: the `$ref` string (empty for inline
schemas) together with the schema value. -/
structure SchemaRef where
  Ref : String
  Value : Schema
deriving DecidableEq, Repr

/-- `openapi3.SchemaRefs` is a slice of nilable pointers to `SchemaRef`. -/
abbrev SchemaRefs := List (Option SchemaRef)

/-- Modelled from the spec: the read-only `Config` (section 3) threaded through
every call; it selects whether the optional `extra` field takes part in the
recursive schema diff. -/
structure Config where
  compareExtra : Bool
deriving DecidableEq, Repr

/-- Modelled from the spec: the result of the recursive schema diff
(section 4.3), restricted to the two fields of the modelled `Schema`;
each field diff is the (from, to) pair, or `none` when the field is equal
or not compared. -/
structure SchemaDiff where
  CoreDiff : Option (Nat × Nat)
  ExtraDiff : Option (Nat × Nat)
deriving DecidableEq, Repr

/-- `SchemaDiff.Empty`: no field difference was recorded. -/
def SchemaDiff.Empty (d : SchemaDiff) : Bool :=
  d.CoreDiff.isNone && d.ExtraDiff.isNone

/-- Modelled from the spec: `getSchemaDiff` (section 4.3) is not under the
embedded sources; it diffs the two schemas field by field, skipping the
optional `extra` field when the configuration excludes it.  The cycle-guard
state is irrelevant here (the modelled schemas are not recursive) and is
omitted. -/
def getSchemaDiff (config : Config) (s1 s2 : Option SchemaRef) : SchemaDiff :=
  match s1, s2 with
  | some r1, some r2 =>
    { CoreDiff := if r1.Value.core = r2.Value.core then none else some (r1.Value.core, r2.Value.core)
      ExtraDiff :=
        if config.compareExtra then
          if r1.Value.extra = r2.Value.extra then none else some (r1.Value.extra, r2.Value.extra)
        else none }
  | _, _ => { CoreDiff := none, ExtraDiff := none }

/-- `ModifiedSchemas`: a Go map from schema name to its diff, embedded as an
association list. -/
abbrev ModifiedSchemas := List (String × SchemaDiff)

/-- Modelled from the spec: `ModifiedSchemas.combine` (not under the embedded
sources) performs a disjoint-key union of the two maps (section 3). -/
def ModifiedSchemas.combine (m1 m2 : ModifiedSchemas) : ModifiedSchemas :=
  m1 ++ m2

/-- Modelled from the spec: `ModifiedSchemas.addSchemaDiff` (not under the
embedded sources) computes the schema diff of the pair and records it under
the given name only when it is non-empty (section 4.1: a key is placed in
modified only if its value-diff is non-empty). -/
def ModifiedSchemas.addSchemaDiff (config : Config) (m : ModifiedSchemas) (ref : String)
    (s1 s2 : Option SchemaRef) : ModifiedSchemas :=
  let d := getSchemaDiff config s1 s2
  if d.Empty then m else m ++ [(ref, d)]

/-- `SchemaListDiff` from the source: added/deleted counters and the map of
modified schemas. -/
structure SchemaListDiff where
  Added : Nat
  Deleted : Nat
  Modified : ModifiedSchemas
deriving DecidableEq, Repr

/-- `SchemaListDiff.Empty` from the source, on the nilable pointer: nil is
empty; otherwise both counters are zero and the modified map has no entry. -/
def SchemaListDiff.Empty : Option SchemaListDiff → Bool
  | none => true
  | some d => d.Added == 0 && d.Deleted == 0 && d.Modified.length == 0

/-- `SchemaListDiff.combine` from the source: counters add, modified maps are
combined.  The Go version returns a pointer and a never-set error; both are
dropped in the embedding. -/
def SchemaListDiff.combine (diff other : SchemaListDiff) : SchemaListDiff :=
  { Added := diff.Added + other.Added
    Deleted := diff.Deleted + other.Deleted
    Modified := diff.Modified.combine other.Modified }

/-- `isSchemaInline` from the source: non-nil with an empty `$ref`. -/
def isSchemaInline : Option SchemaRef → Bool
  | none => false
  | some r => r.Ref == ""

/-- `isSchemaRef` from the source: non-nil with a non-empty `$ref`. -/
def isSchemaRef : Option SchemaRef → Bool
  | none => false
  | some r => r.Ref != ""

/-- `filterSchemaRefs` from the source, embedded faithfully: the loop builds
`result` from the elements passing the filter, but the function returns the
input `schemaRefs`, not `result`. -/
def filterSchemaRefs (schemaRefs : SchemaRefs) (filter : Option SchemaRef → Bool) : SchemaRefs :=
  let result := schemaRefs.foldl
    (fun result schemaRef => if filter schemaRef then result ++ [schemaRef] else result) []
  let _ := result
  schemaRefs

/-- `alreadyMatched` from the source: membership in the matched-index set. -/
def alreadyMatched (index : Nat) (matched : List Nat) : Bool :=
  matched.contains index

/-- Loop of `findIndenticalSchema`, carrying the running index of the scan of
the second list. -/
def findIndenticalSchemaAux (schemaRef1 : Option SchemaRef) (schemaRefs2 : SchemaRefs)
    (matched : List Nat) (index2 : Nat) : Bool × Nat :=
  match schemaRefs2 with
  | [] => (false, 0)
  | schemaRef2 :: rest =>
    if alreadyMatched index2 matched then
      findIndenticalSchemaAux schemaRef1 rest matched (index2 + 1)
    else if schemaRef1 = schemaRef2 then
      (true, index2)
    else
      findIndenticalSchemaAux schemaRef1 rest matched (index2 + 1)

/-- `findIndenticalSchema` from the source: first not-yet-matched element of
the second list that is structurally equal (reflect.DeepEqual) to the given
one, returned with its index; `(false, 0)` when none exists. -/
def findIndenticalSchema (schemaRef1 : Option SchemaRef) (schemasRefs2 : SchemaRefs)
    (matched : List Nat) : Bool × Nat :=
  findIndenticalSchemaAux schemaRef1 schemasRefs2 matched 0

/-- Loop of `getGroupDifference`, carrying the running index of the first
list, the accumulated unmatched indices and the matched-index set. -/
def getGroupDifferenceAux (schemaRefs1 schemaRefs2 : SchemaRefs) (index1 : Nat)
    (notContained matched : List Nat) : List Nat :=
  match schemaRefs1 with
  | [] => notContained
  | schemaRef1 :: rest =>
    match findIndenticalSchema schemaRef1 schemaRefs2 matched with
    | (false, _) =>
      getGroupDifferenceAux rest schemaRefs2 (index1 + 1) (notContained ++ [index1]) matched
    | (true, index2) =>
      getGroupDifferenceAux rest schemaRefs2 (index1 + 1) notContained (index2 :: matched)

/-- `getGroupDifference` from the source: indices of the elements of the first
list that have no structurally equal, not-yet-matched counterpart in the
second list.  The Go version also returns a never-set error, dropped here. -/
def getGroupDifference (schemaRefs1 schemaRefs2 : SchemaRefs) : List Nat :=
  getGroupDifferenceAux schemaRefs1 schemaRefs2 0 [] []

/-- `getSchemaListsInlineDiff` from the source: unmatched elements of each
side; when exactly one remains on each side, their recursive schema diff is
either dropped (when empty) or reported under the synthetic key `#`
followed by one plus the index of the deleted element; otherwise plain
added/deleted counts. -/
def getSchemaListsInlineDiff (config : Config) (schemaRefs1 schemaRefs2 : SchemaRefs) :
    SchemaListDiff :=
  let added := getGroupDifference schemaRefs2 schemaRefs1
  let deleted := getGroupDifference schemaRefs1 schemaRefs2
  if added.length == 1 && deleted.length == 1 then
    let d := getSchemaDiff config (schemaRefs1.getD (deleted.getD 0 0) none)
      (schemaRefs2.getD (added.getD 0 0) none)
    if d.Empty then
      { Added := 0, Deleted := 0, Modified := [] }
    else
      { Added := 0, Deleted := 0
        Modified := [("#" ++ toString (1 + deleted.getD 0 0), d)] }
  else
    { Added := added.length, Deleted := deleted.length, Modified := [] }

/-- `SchemaRefMap` from the source, embedded as an association list with
insert-overwrites semantics. -/
abbrev SchemaRefMap := List (String × Option SchemaRef)

/-- `toSchemaRefsMap` from the source: index the non-inline schemas by their
`$ref`.  (On a nil element the Go code would dereference nil; no claim feeds
a nil element here, and the embedding skips it.) -/
def toSchemaRefsMap (schemaRefs : SchemaRefs) : SchemaRefMap :=
  schemaRefs.foldl
    (fun result schemaRef =>
      if isSchemaInline schemaRef then result
      else
        match schemaRef with
        | some r => result.filter (fun p => p.1 != r.Ref) ++ [(r.Ref, schemaRef)]
        | none => result)
    []

/-- Lookup in a `SchemaRefMap`. -/
def SchemaRefMap.find (m : SchemaRefMap) (k : String) : Option (Option SchemaRef) :=
  match m.find? (fun p => p.1 == k) with
  | some p => some p.2
  | none => none

/-- `getSchemaMapsRefsDiff` from the source: keys only in the first map count
as deleted, keys only in the second as added, keys in both go through
`addSchemaDiff` (which keeps only non-empty diffs). -/
def getSchemaMapsRefsDiff (config : Config) (schemaMap1 schemaMap2 : SchemaRefMap) :
    SchemaListDiff :=
  let start : Nat × ModifiedSchemas := (0, [])
  let step := schemaMap1.foldl
    (fun acc p =>
      match SchemaRefMap.find schemaMap2 p.1 with
      | some schema2 => (acc.1, ModifiedSchemas.addSchemaDiff config acc.2 p.1 p.2 schema2)
      | none => (acc.1 + 1, acc.2))
    start
  let added := (schemaMap2.filter (fun p => (SchemaRefMap.find schemaMap1 p.1).isNone)).length
  { Added := added, Deleted := step.1, Modified := step.2 }

/-- `getSchemaListsRefsDiff` from the source: compare schemas by `$ref` name. -/
def getSchemaListsRefsDiff (config : Config) (schemaRefs1 schemaRefs2 : SchemaRefs) :
    SchemaListDiff :=
  getSchemaMapsRefsDiff config (toSchemaRefsMap schemaRefs1) (toSchemaRefsMap schemaRefs2)

/-- `getSchemaListsDiffInternal` from the source: combine the ref-keyed diff
and the inline diff of the two (supposedly) filtered lists. -/
def getSchemaListsDiffInternal (config : Config) (schemaRefs1 schemaRefs2 : SchemaRefs) :
    SchemaListDiff :=
  let diffRefs := getSchemaListsRefsDiff config
    (filterSchemaRefs schemaRefs1 isSchemaRef) (filterSchemaRefs schemaRefs2 isSchemaRef)
  let diffInline := getSchemaListsInlineDiff config
    (filterSchemaRefs schemaRefs1 isSchemaInline) (filterSchemaRefs schemaRefs2 isSchemaInline)
  diffRefs.combine diffInline

/-- `getSchemaListsDiff` from the source: nil when the internal diff is
empty, otherwise the diff itself. -/
def getSchemaListsDiff (config : Config) (schemaRefs1 schemaRefs2 : SchemaRefs) :
    Option SchemaListDiff :=
  let diff := getSchemaListsDiffInternal config schemaRefs1 schemaRefs2
  if SchemaListDiff.Empty (some diff) then none else some diff

/-- The diff of one modified endpoint's operation pair, abstracted to the
pair of payloads (the filter claims never look inside it). -/
structure EndpointDiff where
  oldVal : Nat
  newVal : Nat
deriving DecidableEq, Repr

/-- `ModifiedEndpoints`: a Go map from endpoint key to its diff, embedded as
an association list. -/
abbrev ModifiedEndpoints := List (String × EndpointDiff)

/-- `DiffResult` from the source: the three top-level containers. -/
structure DiffResult where
  AddedEndpoints : List String
  DeletedEndpoints : List String
  ModifiedEndpoints : ModifiedEndpoints
deriving DecidableEq, Repr

/-- `newDiffResult` from the source: all three containers empty. -/
def newDiffResult : DiffResult :=
  { AddedEndpoints := [], DeletedEndpoints := [], ModifiedEndpoints := [] }

/-- `addAddedEndpoint` from the source: append the endpoint key. -/
def DiffResult.addAddedEndpoint (diffResult : DiffResult) (endpoint : String) : DiffResult :=
  { diffResult with AddedEndpoints := diffResult.AddedEndpoints ++ [endpoint] }

/-- `addDeletedEndpoint` from the source: append the endpoint key. -/
def DiffResult.addDeletedEndpoint (diffResult : DiffResult) (endpoint : String) : DiffResult :=
  { diffResult with DeletedEndpoints := diffResult.DeletedEndpoints ++ [endpoint] }

/-- `filterEndpoints` from the source: keep, in order, the endpoints matched
by the compiled pattern. -/
def filterEndpoints (endpoints : List String) (r : String → Bool) : List String :=
  endpoints.foldl (fun result endpoint => if r endpoint then result ++ [endpoint] else result) []

/-- `filterModifiedEndpoints` from the source: keep the entries whose key is
matched by the compiled pattern. -/
def filterModifiedEndpoints (modifiedEndpoints : ModifiedEndpoints) (r : String → Bool) :
    ModifiedEndpoints :=
  modifiedEndpoints.foldl (fun result p => if r p.1 then result ++ [p] else result) []

/-- `FilterByRegex` from the source.  Go's regexp engine is external; it is
embedded as a `compile` function returning the match predicate of the
compiled pattern, or `none` when compilation fails (the logged error has no
observable effect on the result).  On failure the result is returned
untouched; on success the three containers are rebuilt through the two
filters. -/
def DiffResult.FilterByRegex (compile : String → Option (String → Bool))
    (diffResult : DiffResult) (filter : String) : DiffResult :=
  match compile filter with
  | none => diffResult
  | some r =>
    { AddedEndpoints := filterEndpoints diffResult.AddedEndpoints r
      DeletedEndpoints := filterEndpoints diffResult.DeletedEndpoints r
      ModifiedEndpoints := filterModifiedEndpoints diffResult.ModifiedEndpoints r }

/-- The append-only filtering loop is `List.filter`, for any element type. -/
theorem foldl_filter_append {α : Type} (p : α → Bool) (l acc : List α) :
    l.foldl (fun result x => if p x then result ++ [x] else result) acc = acc ++ l.filter p := by
  induction l generalizing acc with
  | nil => simp
  | cons x xs ih =>
    by_cases h : p x <;> simp [h, ih, List.filter_cons]

/-- `filterEndpoints` computes `List.filter`. -/
theorem filterEndpoints_eq_filter (endpoints : List String) (r : String → Bool) :
    filterEndpoints endpoints r = endpoints.filter r := by
  simpa using foldl_filter_append r endpoints []

/-- `filterModifiedEndpoints` computes `List.filter` on the keys. -/
theorem filterModifiedEndpoints_eq_filter (m : ModifiedEndpoints) (r : String → Bool) :
    filterModifiedEndpoints m r = m.filter (fun p => r p.1) := by
  have h := foldl_filter_append (fun p : String × EndpointDiff => r p.1) m []
  simpa [filterModifiedEndpoints] using h

/-- Map of endpoint key to (abstract) operation payload of one document. -/
abbrev EndpointsMap := List (String × Nat)

/-- Lookup in an `EndpointsMap`. -/
def EndpointsMap.find (m : EndpointsMap) (k : String) : Option Nat :=
  match m.find? (fun p => p.1 == k) with
  | some p => some p.2
  | none => none

/-- Modelled from the spec: the top-level endpoint-set diff (sections 4.1 and
4.5) is not under the embedded sources; per section 4.1 the added and deleted
key lists are sorted lexicographically before being inserted through the
source's `addAddedEndpoint`/`addDeletedEndpoint`, and modified holds the keys
present in both maps whose payloads differ. -/
def getEndpointsDiff (endpoints1 endpoints2 : EndpointsMap) : DiffResult :=
  let addedKeys := List.insertionSort (· ≤ ·)
    ((endpoints2.filter (fun p => (EndpointsMap.find endpoints1 p.1).isNone)).map Prod.fst)
  let deletedKeys := List.insertionSort (· ≤ ·)
    ((endpoints1.filter (fun p => (EndpointsMap.find endpoints2 p.1).isNone)).map Prod.fst)
  let modified := endpoints1.filterMap (fun p =>
    match EndpointsMap.find endpoints2 p.1 with
    | some v2 => if p.2 = v2 then none else some (p.1, EndpointDiff.mk p.2 v2)
    | none => none)
  let withAdded := addedKeys.foldl DiffResult.addAddedEndpoint newDiffResult
  let withDeleted := deletedKeys.foldl DiffResult.addDeletedEndpoint withAdded
  { withDeleted with ModifiedEndpoints := modified }

/-- Inserting keys through `addAddedEndpoint` appends them to the added
container and leaves the deleted container alone. -/
theorem foldl_addAddedEndpoint (keys : List String) (d : DiffResult) :
    (keys.foldl DiffResult.addAddedEndpoint d).AddedEndpoints = d.AddedEndpoints ++ keys ∧
    (keys.foldl DiffResult.addAddedEndpoint d).DeletedEndpoints = d.DeletedEndpoints := by
  induction keys generalizing d with
  | nil => simp
  | cons x xs ih =>
    simpa [DiffResult.addAddedEndpoint] using ih { d with AddedEndpoints := d.AddedEndpoints ++ [x] }

/-- Inserting keys through `addDeletedEndpoint` appends them to the deleted
container and leaves the added container alone. -/
theorem foldl_addDeletedEndpoint (keys : List String) (d : DiffResult) :
    (keys.foldl DiffResult.addDeletedEndpoint d).DeletedEndpoints = d.DeletedEndpoints ++ keys ∧
    (keys.foldl DiffResult.addDeletedEndpoint d).AddedEndpoints = d.AddedEndpoints := by
  induction keys generalizing d with
  | nil => simp
  | cons x xs ih =>
    simpa [DiffResult.addDeletedEndpoint] using
      ih { d with DeletedEndpoints := d.DeletedEndpoints ++ [x] }

/-- C1, counterexample: two singleton inline lists whose elements are not
structurally equal but whose recursive schema diff is empty (the optional
field differs and the configuration excludes it): exactly one element is
unmatched on each side, the schema diff is empty, yet the inline diff is the
empty `SchemaListDiff` — the pair is silently dropped, with no `modified`
entry, contradicting the claim. -/
theorem C1_counterexample :
    (getGroupDifference [some ⟨"", ⟨5, 2⟩⟩] [some ⟨"", ⟨5, 1⟩⟩]).length = 1 ∧
    (getGroupDifference [some ⟨"", ⟨5, 1⟩⟩] [some ⟨"", ⟨5, 2⟩⟩]).length = 1 ∧
    (getSchemaDiff ⟨false⟩ (some ⟨"", ⟨5, 1⟩⟩) (some ⟨"", ⟨5, 2⟩⟩)).Empty = true ∧
    getSchemaListsInlineDiff ⟨false⟩ [some ⟨"", ⟨5, 1⟩⟩] [some ⟨"", ⟨5, 2⟩⟩]
      = { Added := 0, Deleted := 0, Modified := [] } := by
  decide

/-- C1, amended: in the inline schema-list diff, when exactly one element is
unmatched on each side and their recursive schema diff is empty, the result
is the empty `SchemaListDiff`: the pair is silently dropped, reported neither
as a `modified` entry nor as an addition/deletion. -/
theorem C1_empty_diff_pair_dropped (config : Config) (l1 l2 : SchemaRefs) (i j : Nat)
    (h1 : getGroupDifference l2 l1 = [i])
    (h2 : getGroupDifference l1 l2 = [j])
    (h3 : (getSchemaDiff config (l1.getD j none) (l2.getD i none)).Empty = true) :
    getSchemaListsInlineDiff config l1 l2 = { Added := 0, Deleted := 0, Modified := [] } := by
  unfold getSchemaListsInlineDiff
  rw [h1, h2]
  simp only [List.getD_eq_getElem?_getD] at h3
  simp [h3]

/-- C1, witness: the amended theorem applied to the counterexample input. -/
theorem C1_empty_diff_pair_dropped_witness :
    getSchemaListsInlineDiff ⟨false⟩ [some ⟨"", ⟨5, 1⟩⟩] [some ⟨"", ⟨5, 2⟩⟩]
      = { Added := 0, Deleted := 0, Modified := [] } :=
  C1_empty_diff_pair_dropped ⟨false⟩ _ _ 0 0 (by decide) (by decide) (by decide)

/-- C2: `filterSchemaRefs` does not return the elements satisfying the
predicate: on a list holding one referenced and one inline schema, filtering
by `isSchemaInline` returns the whole input list (the loop builds the
filtered `result` but the function returns the input), while the elements
satisfying the predicate are just the inline one. -/
theorem C2_filterSchemaRefs_returns_input :
    filterSchemaRefs [some ⟨"r", ⟨0, 0⟩⟩, some ⟨"", ⟨1, 0⟩⟩] isSchemaInline
      = [some ⟨"r", ⟨0, 0⟩⟩, some ⟨"", ⟨1, 0⟩⟩] ∧
    List.filter isSchemaInline [some ⟨"r", ⟨0, 0⟩⟩, some ⟨"", ⟨1, 0⟩⟩]
      = [some ⟨"", ⟨1, 0⟩⟩] ∧
    filterSchemaRefs [some ⟨"r", ⟨0, 0⟩⟩, some ⟨"", ⟨1, 0⟩⟩] isSchemaInline
      ≠ List.filter isSchemaInline [some ⟨"r", ⟨0, 0⟩⟩, some ⟨"", ⟨1, 0⟩⟩] := by
  decide

/-- C3, counterexample: for A=[S1,S2], B=[S1,S3] with S1 shared and S2,S3
distinct, the single modified entry is keyed `#2` (one plus the index of the
deleted element in A), not `#1` as claimed. -/
theorem C3_counterexample :
    (getSchemaListsInlineDiff ⟨false⟩
        [some ⟨"", ⟨0, 0⟩⟩, some ⟨"", ⟨1, 0⟩⟩]
        [some ⟨"", ⟨0, 0⟩⟩, some ⟨"", ⟨2, 0⟩⟩]).Modified
      = [("#2", getSchemaDiff ⟨false⟩ (some ⟨"", ⟨1, 0⟩⟩) (some ⟨"", ⟨2, 0⟩⟩))] ∧
    (getSchemaListsInlineDiff ⟨false⟩
        [some ⟨"", ⟨0, 0⟩⟩, some ⟨"", ⟨1, 0⟩⟩]
        [some ⟨"", ⟨0, 0⟩⟩, some ⟨"", ⟨2, 0⟩⟩]).Modified
      ≠ [("#1", getSchemaDiff ⟨false⟩ (some ⟨"", ⟨1, 0⟩⟩) (some ⟨"", ⟨2, 0⟩⟩))] := by
  decide

/-- C3, amended: for inline lists A=[S1,S2], B=[S1,S3] with S1 structurally
identical across lists, S2 structurally different from S3 and the recursive
schema diff of S2,S3 non-empty, the inline diff has added=0, deleted=0 and
exactly one modified entry, keyed `#2` (one plus the index of the deleted
element in A), mapping to the recursive schema diff of S2 and S3. -/
theorem C3_inline_pair_heuristic (config : Config) (r1 r2 r3 : SchemaRef)
    (h23 : r2 ≠ r3)
    (hne : (getSchemaDiff config (some r2) (some r3)).Empty = false) :
    getSchemaListsInlineDiff config [some r1, some r2] [some r1, some r3]
      = { Added := 0, Deleted := 0
          Modified := [("#2", getSchemaDiff config (some r2) (some r3))] } := by
  have hadded : getGroupDifference [some r1, some r3] [some r1, some r2] = [1] := by
    simp [getGroupDifference, getGroupDifferenceAux, findIndenticalSchema,
      findIndenticalSchemaAux, alreadyMatched, Ne.symm h23]
  have hdeleted : getGroupDifference [some r1, some r2] [some r1, some r3] = [1] := by
    simp [getGroupDifference, getGroupDifferenceAux, findIndenticalSchema,
      findIndenticalSchemaAux, alreadyMatched, h23]
  unfold getSchemaListsInlineDiff
  rw [hadded, hdeleted]
  simp [hne]
  decide

/-- C3, witness: the amended theorem applied to the counterexample input. -/
theorem C3_inline_pair_heuristic_witness :
    getSchemaListsInlineDiff ⟨false⟩
        [some ⟨"", ⟨0, 0⟩⟩, some ⟨"", ⟨1, 0⟩⟩]
        [some ⟨"", ⟨0, 0⟩⟩, some ⟨"", ⟨2, 0⟩⟩]
      = { Added := 0, Deleted := 0
          Modified := [("#2", getSchemaDiff ⟨false⟩ (some ⟨"", ⟨1, 0⟩⟩) (some ⟨"", ⟨2, 0⟩⟩))] } :=
  C3_inline_pair_heuristic ⟨false⟩ ⟨"", ⟨0, 0⟩⟩ ⟨"", ⟨1, 0⟩⟩ ⟨"", ⟨2, 0⟩⟩
    (by decide) (by decide)

/-- C4: for inline lists A=[S1,S2], B=[S1,S3,S4] with S1 structurally
identical across lists and S2, S3, S4 mutually distinct, the inline diff has
added=2, deleted=1 and an empty modified map: the unmatched counts are not
both one, so all unmatched elements are classified as plain
additions/deletions with no pairing attempted. -/
theorem C4_ambiguity_fallback (config : Config) (r1 r2 r3 r4 : SchemaRef)
    (h23 : r2 ≠ r3) (h24 : r2 ≠ r4) (h34 : r3 ≠ r4) :
    getSchemaListsInlineDiff config [some r1, some r2] [some r1, some r3, some r4]
      = { Added := 2, Deleted := 1, Modified := [] } := by
  have hadded :
      getGroupDifference [some r1, some r3, some r4] [some r1, some r2] = [1, 2] := by
    simp [getGroupDifference, getGroupDifferenceAux, findIndenticalSchema,
      findIndenticalSchemaAux, alreadyMatched, Ne.symm h23, Ne.symm h24]
  have hdeleted :
      getGroupDifference [some r1, some r2] [some r1, some r3, some r4] = [1] := by
    simp [getGroupDifference, getGroupDifferenceAux, findIndenticalSchema,
      findIndenticalSchemaAux, alreadyMatched, h23, h24]
  unfold getSchemaListsInlineDiff
  rw [hadded, hdeleted]
  simp

/-- C4, witness: the theorem applied to four concrete mutually distinct
inline schemas. -/
theorem C4_ambiguity_fallback_witness :
    getSchemaListsInlineDiff ⟨false⟩
        [some ⟨"", ⟨0, 0⟩⟩, some ⟨"", ⟨1, 0⟩⟩]
        [some ⟨"", ⟨0, 0⟩⟩, some ⟨"", ⟨2, 0⟩⟩, some ⟨"", ⟨3, 0⟩⟩]
      = { Added := 2, Deleted := 1, Modified := [] } :=
  C4_ambiguity_fallback ⟨false⟩ ⟨"", ⟨0, 0⟩⟩ ⟨"", ⟨1, 0⟩⟩ ⟨"", ⟨2, 0⟩⟩ ⟨"", ⟨3, 0⟩⟩
    (by decide) (by decide) (by decide)

/-- C5: `combine` is associative and commutative on the `Added` and `Deleted`
counters, and for `SchemaListDiff` values with pairwise disjoint modified key
spaces it performs a disjoint-key union on the `Modified` maps: the combined
key list is the concatenation of the two key lists and an entry belongs to
the combination exactly when it belongs to one of the operands. -/
theorem C5_combine_assoc_comm (X Y Z : SchemaListDiff)
    (hXY : ∀ k, k ∈ X.Modified.map Prod.fst → k ∉ Y.Modified.map Prod.fst)
    (hXZ : ∀ k, k ∈ X.Modified.map Prod.fst → k ∉ Z.Modified.map Prod.fst)
    (hYZ : ∀ k, k ∈ Y.Modified.map Prod.fst → k ∉ Z.Modified.map Prod.fst) :
    ((X.combine Y).combine Z).Added = (X.combine (Y.combine Z)).Added ∧
    ((X.combine Y).combine Z).Deleted = (X.combine (Y.combine Z)).Deleted ∧
    (X.combine Y).Added = (Y.combine X).Added ∧
    (X.combine Y).Deleted = (Y.combine X).Deleted ∧
    (X.combine Y).Modified.map Prod.fst = X.Modified.map Prod.fst ++ Y.Modified.map Prod.fst ∧
    (∀ p, p ∈ (X.combine Y).Modified ↔ p ∈ X.Modified ∨ p ∈ Y.Modified) := by
  refine ⟨?_, ?_, ?_, ?_, ?_, ?_⟩
  · simp [SchemaListDiff.combine, Nat.add_assoc]
  · simp [SchemaListDiff.combine, Nat.add_assoc]
  · simp [SchemaListDiff.combine, Nat.add_comm]
  · simp [SchemaListDiff.combine, Nat.add_comm]
  · simp [SchemaListDiff.combine, ModifiedSchemas.combine]
  · intro p
    simp [SchemaListDiff.combine, ModifiedSchemas.combine]

/-- C5, witness: the theorem applied to three concrete diffs with pairwise
disjoint modified key spaces. -/
theorem C5_combine_assoc_comm_witness :
    (((SchemaListDiff.mk 1 2 [("a", ⟨none, none⟩)]).combine
        (SchemaListDiff.mk 3 4 [("b", ⟨none, none⟩)])).combine
          (SchemaListDiff.mk 5 6 [("c", ⟨none, none⟩)])).Added
      = ((SchemaListDiff.mk 1 2 [("a", ⟨none, none⟩)]).combine
          ((SchemaListDiff.mk 3 4 [("b", ⟨none, none⟩)]).combine
            (SchemaListDiff.mk 5 6 [("c", ⟨none, none⟩)]))).Added ∧
    ((SchemaListDiff.mk 1 2 [("a", ⟨none, none⟩)]).combine
        (SchemaListDiff.mk 3 4 [("b", ⟨none, none⟩)])).Modified.map Prod.fst
      = ["a", "b"] :=
  have h := C5_combine_assoc_comm
    (SchemaListDiff.mk 1 2 [("a", ⟨none, none⟩)])
    (SchemaListDiff.mk 3 4 [("b", ⟨none, none⟩)])
    (SchemaListDiff.mk 5 6 [("c", ⟨none, none⟩)])
    (by decide) (by decide) (by decide)
  ⟨h.1, h.2.2.2.2.1.trans (by decide)⟩

/-- C10: `getSchemaListsDiff` returns nil exactly when the internally
computed `SchemaListDiff` is empty (both counters zero and no modified
entry), and `Empty` on the nil pointer returns true. -/
theorem C10_nil_iff_empty (config : Config) (l1 l2 : SchemaRefs) :
    (getSchemaListsDiff config l1 l2 = none ↔
      ((getSchemaListsDiffInternal config l1 l2).Added = 0 ∧
       (getSchemaListsDiffInternal config l1 l2).Deleted = 0 ∧
       (getSchemaListsDiffInternal config l1 l2).Modified = [])) ∧
    SchemaListDiff.Empty none = true := by
  refine ⟨?_, rfl⟩
  have hmain : getSchemaListsDiff config l1 l2
      = if SchemaListDiff.Empty (some (getSchemaListsDiffInternal config l1 l2)) then none
        else some (getSchemaListsDiffInternal config l1 l2) := rfl
  rw [hmain]
  by_cases h : SchemaListDiff.Empty (some (getSchemaListsDiffInternal config l1 l2)) = true
  · rw [if_pos h]
    simp only [SchemaListDiff.Empty, Bool.and_eq_true, beq_iff_eq] at h
    obtain ⟨⟨ha, hd⟩, hm⟩ := h
    exact ⟨fun _ => ⟨ha, hd, List.length_eq_zero.mp hm⟩, fun _ => rfl⟩
  · rw [if_neg h]
    constructor
    · intro hc
      simp at hc
    · rintro ⟨ha, hd, hm⟩
      exact absurd (by simp [SchemaListDiff.Empty, ha, hd, hm]) h

/-- Result of the order-insensitive string-set diff. -/
structure StringsDiff where
  Added : List String
  Deleted : List String
deriving DecidableEq, Repr

/-- A `StringsDiff` with no added and no deleted string is empty. -/
def StringsDiff.empty (d : StringsDiff) : Bool :=
  d.Added.isEmpty && d.Deleted.isEmpty

/-- Modelled from the spec: `getStringsDiff` (not under the embedded sources)
computes the order-insensitive diff of two string sequences and returns the
no-difference sentinel nil when they are equal as sets. -/
def getStringsDiff (strings1 strings2 : List String) : Option StringsDiff :=
  let added := strings2.filter (fun s => !strings1.contains s)
  let deleted := strings1.filter (fun s => !strings2.contains s)
  if added.isEmpty && deleted.isEmpty then none else some ⟨added, deleted⟩

/-- Modelled from the spec: `getValueDiff` (not under the embedded sources)
returns the no-difference sentinel nil when the two values are equal, and the
(from, to) pair otherwise. -/
def getValueDiff {α : Type} [DecidableEq α] (value1 value2 : α) : Option (α × α) :=
  if value1 = value2 then none else some (value1, value2)

/-- Result of a keyed-collection diff: added keys, deleted keys, and the keys
present on both sides whose values differ. -/
structure KeyedDiff where
  Added : List String
  Deleted : List String
  Modified : List String
deriving DecidableEq, Repr

/-- A `KeyedDiff` with all three containers empty is empty. -/
def KeyedDiff.empty (d : KeyedDiff) : Bool :=
  d.Added.isEmpty && d.Deleted.isEmpty && d.Modified.isEmpty

/-- Modelled from the spec: the generic keyed-collection diff (section 4.1)
over maps with abstract value payloads; a key goes to modified only when
present on both sides with differing payloads. -/
def getKeyedDiff (m1 m2 : EndpointsMap) : KeyedDiff :=
  { Added := (m2.filter (fun p => (EndpointsMap.find m1 p.1).isNone)).map Prod.fst
    Deleted := (m1.filter (fun p => (EndpointsMap.find m2 p.1).isNone)).map Prod.fst
    Modified := m1.filterMap (fun p =>
      match EndpointsMap.find m2 p.1 with
      | some v2 => if p.2 = v2 then none else some p.1
      | none => none) }

/-- Modelled from the spec: the request-body diff (section 4.4) records the
presence/content pair of the two sides. -/
structure RequestBodyDiff where
  bodyFrom : Option Nat
  bodyTo : Option Nat
deriving DecidableEq, Repr

/-- A `RequestBodyDiff` is empty when both sides agree. -/
def RequestBodyDiff.empty (d : RequestBodyDiff) : Bool :=
  d.bodyFrom == d.bodyTo

/-- Modelled from the spec: `getRequestBodyDiff` (not under the embedded
sources) pairs the two sides; its emptiness check drives the caller. -/
def getRequestBodyDiff (body1 body2 : Option Nat) : RequestBodyDiff :=
  ⟨body1, body2⟩

/-- Modelled from the spec: the servers diff (section 4.4) is an ordered
sequence diff of the server URL lists. -/
structure ServersDiff where
  serversFrom : List String
  serversTo : List String
deriving DecidableEq, Repr

/-- A `ServersDiff` is empty when the two ordered lists agree. -/
def ServersDiff.empty (d : ServersDiff) : Bool :=
  d.serversFrom == d.serversTo

/-- Modelled from the spec: `getServersDiff` (not under the embedded sources)
pairs the two ordered URL lists; its emptiness check drives the caller. -/
def getServersDiff (servers1 servers2 : List String) : ServersDiff :=
  ⟨servers1, servers2⟩

/-- One `openapi3.Operation`, restricted to the fields `getMethodDiff` reads;
parameters, responses and callbacks are keyed maps with abstract payloads. -/
structure Operation where
  Tags : List String
  Summary : String
  Description : String
  OperationID : String
  Parameters : EndpointsMap
  RequestBody : Option Nat
  Responses : EndpointsMap
  Callbacks : EndpointsMap
  Deprecated : Bool
  Servers : List String
deriving DecidableEq, Repr

/-- `MethodDiff` from the source: ten nilable sub-diff fields. -/
structure MethodDiff where
  TagsDiff : Option StringsDiff
  SummaryDiff : Option (String × String)
  DescriptionDiff : Option (String × String)
  OperationIDDiff : Option (String × String)
  ParametersDiff : Option KeyedDiff
  RequestBodyDiff : Option Oasdiff.RequestBodyDiff
  ResponsesDiff : Option KeyedDiff
  CallbacksDiff : Option KeyedDiff
  DeprecatedDiff : Option (Bool × Bool)
  ServersDiff : Option Oasdiff.ServersDiff
deriving DecidableEq, Repr

/-- `newMethodDiff` from the source: the zero value, all fields nil. -/
def newMethodDiff : MethodDiff :=
  ⟨none, none, none, none, none, none, none, none, none, none⟩

/-- `MethodDiff.empty` from the source: comparison of the whole structure
with the zero value (`*methodDiff == MethodDiff{}`). -/
def MethodDiff.empty (methodDiff : MethodDiff) : Bool :=
  decide (methodDiff = newMethodDiff)

/-- `getMethodDiff` from the source: leaf sub-diffs are stored directly (they
are nil exactly when empty); composite sub-diffs are stored only when their
own emptiness check fails. -/
def getMethodDiff (pathItem1 pathItem2 : Operation) : MethodDiff :=
  let parametersDiff := getKeyedDiff pathItem1.Parameters pathItem2.Parameters
  let requestBodyDiff := getRequestBodyDiff pathItem1.RequestBody pathItem2.RequestBody
  let responsesDiff := getKeyedDiff pathItem1.Responses pathItem2.Responses
  let callbacksDiff := getKeyedDiff pathItem1.Callbacks pathItem2.Callbacks
  let serversDiff := getServersDiff pathItem1.Servers pathItem2.Servers
  { TagsDiff := getStringsDiff pathItem1.Tags pathItem2.Tags
    SummaryDiff := getValueDiff pathItem1.Summary pathItem2.Summary
    DescriptionDiff := getValueDiff pathItem1.Description pathItem2.Description
    OperationIDDiff := getValueDiff pathItem1.OperationID pathItem2.OperationID
    ParametersDiff := if parametersDiff.empty then none else some parametersDiff
    RequestBodyDiff := if requestBodyDiff.empty then none else some requestBodyDiff
    ResponsesDiff := if responsesDiff.empty then none else some responsesDiff
    CallbacksDiff := if callbacksDiff.empty then none else some callbacksDiff
    DeprecatedDiff := getValueDiff pathItem1.Deprecated pathItem2.Deprecated
    ServersDiff := if serversDiff.empty then none else some serversDiff }

/-- Emptiness of a nilable sub-diff: nil is empty, otherwise the sub-diff's
own emptiness check applies. -/
def optEmpty {α : Type} (e : α → Bool) : Option α → Bool
  | none => true
  | some d => e d

/-- The emptiness computation the specification prescribes for the operation
diff, written purely from the spec's words for comparison with the source's
`MethodDiff.empty`: the conjunction of each sub-diff's own emptiness check
(a nil leaf diff is empty; a non-nil composite sub-diff is empty exactly when
its own emptiness predicate holds, even if it is a non-nil pointer to an
empty value). -/
def MethodDiff.emptyByFields (d : MethodDiff) : Bool :=
  optEmpty StringsDiff.empty d.TagsDiff &&
  d.SummaryDiff.isNone &&
  d.DescriptionDiff.isNone &&
  d.OperationIDDiff.isNone &&
  optEmpty KeyedDiff.empty d.ParametersDiff &&
  optEmpty RequestBodyDiff.empty d.RequestBodyDiff &&
  optEmpty KeyedDiff.empty d.ResponsesDiff &&
  optEmpty KeyedDiff.empty d.CallbacksDiff &&
  d.DeprecatedDiff.isNone &&
  optEmpty ServersDiff.empty d.ServersDiff

/-- A guarded field equals nil exactly when the guard's emptiness check
holds. -/
theorem ite_some_none_eq_none {α : Type} (b : Bool) (x : α) :
    ((if b = true then none else some x) = none) ↔ b = true := by
  cases b <;> simp

/-- On a guarded field, the sub-diff's own emptiness check agrees with the
guard. -/
theorem optEmpty_ite {α : Type} (e : α → Bool) (x : α) :
    optEmpty e (if e x = true then none else some x) = true ↔ e x = true := by
  by_cases h : e x = true <;> simp [h, optEmpty]

/-- `getStringsDiff` never returns a non-nil empty diff. -/
theorem optEmpty_getStringsDiff (strings1 strings2 : List String) :
    optEmpty StringsDiff.empty (getStringsDiff strings1 strings2) = true ↔
      getStringsDiff strings1 strings2 = none := by
  simp only [getStringsDiff]
  generalize List.filter (fun s => !strings1.contains s) strings2 = a
  generalize List.filter (fun s => !strings2.contains s) strings1 = d
  by_cases h : (a.isEmpty && d.isEmpty) = true
  · rw [if_pos h]
    simp [optEmpty]
  · rw [if_neg h]
    simp only [optEmpty, StringsDiff.empty]
    constructor
    · intro hh
      exact absurd hh h
    · intro hh
      simp at hh

/-- C6: when the pattern fails to compile, `FilterByRegex` leaves the whole
result unchanged: all three containers are exactly as before, nothing is
partially filtered and no error is raised. -/
theorem C6_invalid_pattern_noop (compile : String → Option (String → Bool))
    (diffResult : DiffResult) (pattern : String)
    (h : compile pattern = none) :
    DiffResult.FilterByRegex compile diffResult pattern = diffResult := by
  unfold DiffResult.FilterByRegex
  rw [h]

/-- A concrete diff result used by the filter witnesses. -/
def filterDemoResult : DiffResult :=
  { AddedEndpoints := ["GET /pets", "GET /x"]
    DeletedEndpoints := ["DELETE /y"]
    ModifiedEndpoints := [("GET /pets", ⟨1, 2⟩), ("POST /z", ⟨3, 4⟩)] }

/-- A pattern string standing for an uncompilable regular expression. -/
def badPattern : String := "("

/-- C6, witness: a compile function rejecting every pattern leaves the
concrete result untouched. -/
theorem C6_invalid_pattern_noop_witness :
    DiffResult.FilterByRegex (fun _ => none) filterDemoResult badPattern = filterDemoResult :=
  C6_invalid_pattern_noop (fun _ => none) filterDemoResult badPattern rfl

/-- C7: when the pattern compiles to the match predicate `m`, each of the
added and deleted containers is replaced by exactly its entries matching `m`,
in their prior relative order, and the modified container by exactly its
entries whose key matches `m`; a predicate matching everything gives the
identity transform, and a predicate matching nothing empties all three
containers. -/
theorem C7_filter_laws (compile : String → Option (String → Bool)) (pattern : String)
    (m : String → Bool) (diffResult : DiffResult)
    (h : compile pattern = some m) :
    (DiffResult.FilterByRegex compile diffResult pattern).AddedEndpoints
        = diffResult.AddedEndpoints.filter m ∧
    (DiffResult.FilterByRegex compile diffResult pattern).DeletedEndpoints
        = diffResult.DeletedEndpoints.filter m ∧
    (DiffResult.FilterByRegex compile diffResult pattern).ModifiedEndpoints
        = diffResult.ModifiedEndpoints.filter (fun p => m p.1) ∧
    ((∀ e, m e = true) → DiffResult.FilterByRegex compile diffResult pattern = diffResult) ∧
    ((∀ e, m e = false) → DiffResult.FilterByRegex compile diffResult pattern
        = { AddedEndpoints := [], DeletedEndpoints := [], ModifiedEndpoints := [] }) := by
  obtain ⟨A, D, M⟩ := diffResult
  unfold DiffResult.FilterByRegex
  rw [h]
  refine ⟨filterEndpoints_eq_filter A m, filterEndpoints_eq_filter D m,
    filterModifiedEndpoints_eq_filter M m, ?_, ?_⟩
  · intro hall
    simp [filterEndpoints_eq_filter, filterModifiedEndpoints_eq_filter,
      List.filter_eq_self, hall]
  · intro hnone
    simp [filterEndpoints_eq_filter, filterModifiedEndpoints_eq_filter, hnone]

/-- Match predicate used by the C7 witness. -/
def demoMatcher : String → Bool := fun s => s == "GET /pets"

/-- Compile function used by the C7 witness. -/
def demoCompile : String → Option (String → Bool) := fun _ => some demoMatcher

/-- Demo pattern string used by the C7 witness. -/
def demoPattern : String := "GET /pets"

/-- C7, witness: the theorem applied to a concrete result and a concrete
matcher, with the filters evaluated on the concrete containers. -/
theorem C7_filter_laws_witness :
    (DiffResult.FilterByRegex demoCompile filterDemoResult demoPattern).AddedEndpoints
        = ["GET /pets"] ∧
    (DiffResult.FilterByRegex demoCompile filterDemoResult demoPattern).DeletedEndpoints
        = [] ∧
    (DiffResult.FilterByRegex demoCompile filterDemoResult demoPattern).ModifiedEndpoints
        = [("GET /pets", ⟨1, 2⟩)] :=
  have h := C7_filter_laws demoCompile demoPattern demoMatcher filterDemoResult rfl
  ⟨h.1.trans (by decide), h.2.1.trans (by decide), h.2.2.1.trans (by decide)⟩

/-- C9: the added and deleted containers of the endpoint-set diff result are
sorted lexicographically by endpoint key, so the output does not depend on
the iteration order of the input maps. -/
theorem C9_added_deleted_sorted (endpoints1 endpoints2 : EndpointsMap) :
    List.Sorted (· ≤ ·) (getEndpointsDiff endpoints1 endpoints2).AddedEndpoints ∧
    List.Sorted (· ≤ ·) (getEndpointsDiff endpoints1 endpoints2).DeletedEndpoints := by
  unfold getEndpointsDiff
  simp only
  constructor
  · rw [(foldl_addDeletedEndpoint _ _).2, (foldl_addAddedEndpoint _ _).1]
    simpa [newDiffResult] using List.sorted_insertionSort (α := String) (· ≤ ·) _
  · rw [(foldl_addDeletedEndpoint _ _).1, (foldl_addAddedEndpoint _ _).2]
    simpa [newDiffResult] using List.sorted_insertionSort (α := String) (· ≤ ·) _

/-- C8, counterexample: emptiness of a `MethodDiff` is not computed as the
conjunction of each sub-diff's own emptiness check: on a value whose
parameters sub-diff is a non-nil pointer to an empty diff, the source's
zero-value comparison says non-empty while the conjunction of the sub-diffs'
own emptiness checks says empty. -/
theorem C8_counterexample :
    MethodDiff.empty { newMethodDiff with ParametersDiff := some ⟨[], [], []⟩ } = false ∧
    MethodDiff.emptyByFields { newMethodDiff with ParametersDiff := some ⟨[], [], []⟩ } = true ∧
    MethodDiff.empty { newMethodDiff with ParametersDiff := some ⟨[], [], []⟩ }
      ≠ MethodDiff.emptyByFields { newMethodDiff with ParametersDiff := some ⟨[], [], []⟩ } := by
  decide

/-- C8, amended: for every pair of operations the method diff is empty iff
every individual sub-diff is empty; emptiness is computed by comparing the
whole structure with its zero value, which on `getMethodDiff` outputs
coincides with the conjunction of the sub-diffs' own emptiness checks,
because composite sub-diffs are stored only when non-empty and leaf diffs
are nil exactly when empty. -/
theorem C8_empty_iff_subdiffs_empty (pathItem1 pathItem2 : Operation) :
    ((getMethodDiff pathItem1 pathItem2).empty = true ↔
      (getStringsDiff pathItem1.Tags pathItem2.Tags = none ∧
       getValueDiff pathItem1.Summary pathItem2.Summary = none ∧
       getValueDiff pathItem1.Description pathItem2.Description = none ∧
       getValueDiff pathItem1.OperationID pathItem2.OperationID = none ∧
       (getKeyedDiff pathItem1.Parameters pathItem2.Parameters).empty = true ∧
       (getRequestBodyDiff pathItem1.RequestBody pathItem2.RequestBody).empty = true ∧
       (getKeyedDiff pathItem1.Responses pathItem2.Responses).empty = true ∧
       (getKeyedDiff pathItem1.Callbacks pathItem2.Callbacks).empty = true ∧
       getValueDiff pathItem1.Deprecated pathItem2.Deprecated = none ∧
       (getServersDiff pathItem1.Servers pathItem2.Servers).empty = true)) ∧
    (getMethodDiff pathItem1 pathItem2).empty
      = (getMethodDiff pathItem1 pathItem2).emptyByFields := by
  have hzero : (getMethodDiff pathItem1 pathItem2).empty = true ↔
      (getStringsDiff pathItem1.Tags pathItem2.Tags = none ∧
       getValueDiff pathItem1.Summary pathItem2.Summary = none ∧
       getValueDiff pathItem1.Description pathItem2.Description = none ∧
       getValueDiff pathItem1.OperationID pathItem2.OperationID = none ∧
       (getKeyedDiff pathItem1.Parameters pathItem2.Parameters).empty = true ∧
       (getRequestBodyDiff pathItem1.RequestBody pathItem2.RequestBody).empty = true ∧
       (getKeyedDiff pathItem1.Responses pathItem2.Responses).empty = true ∧
       (getKeyedDiff pathItem1.Callbacks pathItem2.Callbacks).empty = true ∧
       getValueDiff pathItem1.Deprecated pathItem2.Deprecated = none ∧
       (getServersDiff pathItem1.Servers pathItem2.Servers).empty = true) := by
    simp only [MethodDiff.empty, getMethodDiff, newMethodDiff, decide_eq_true_eq,
      MethodDiff.mk.injEq, ite_some_none_eq_none]
  have hfields : (getMethodDiff pathItem1 pathItem2).emptyByFields = true ↔
      (getStringsDiff pathItem1.Tags pathItem2.Tags = none ∧
       getValueDiff pathItem1.Summary pathItem2.Summary = none ∧
       getValueDiff pathItem1.Description pathItem2.Description = none ∧
       getValueDiff pathItem1.OperationID pathItem2.OperationID = none ∧
       (getKeyedDiff pathItem1.Parameters pathItem2.Parameters).empty = true ∧
       (getRequestBodyDiff pathItem1.RequestBody pathItem2.RequestBody).empty = true ∧
       (getKeyedDiff pathItem1.Responses pathItem2.Responses).empty = true ∧
       (getKeyedDiff pathItem1.Callbacks pathItem2.Callbacks).empty = true ∧
       getValueDiff pathItem1.Deprecated pathItem2.Deprecated = none ∧
       (getServersDiff pathItem1.Servers pathItem2.Servers).empty = true) := by
    simp only [MethodDiff.emptyByFields, getMethodDiff, Bool.and_eq_true,
      optEmpty_getStringsDiff, optEmpty_ite, Option.isNone_iff_eq_none]
    tauto
  exact ⟨hzero, Bool.eq_iff_iff.mpr (hzero.trans hfields.symm)⟩

end Oasdiff
